import Mathlib

/-!
Verification of the `update-bin` utility (src/main.rs): a shallow embedding of
its pure logic in Lean 4, with external effects (child-process invocations and
file reads) modelled as an explicit environment of oracle results.

Strings are modelled by Lean `String` (a wrapper around `List Char`); all the
Rust string primitives the program uses (`trim`, `lines`, `split`,
`split_whitespace`, `contains`, `starts_with`, `strip_prefix`,
`trim_end_matches`, `replace`, `to_lowercase`) are re-implemented below by
structural recursion on the character list, so that every definition evaluates
inside the kernel. The Rust originals operate on Unicode scalar values exactly
as these do on `Char`; the only approximation is that Rust whitespace and
case-mapping are full Unicode while `Char.isWhitespace`/`Char.toLower` cover
the ASCII range, which is all the program's inputs use.
-/

/-- Whitespace test used by the Rust `trim` / `split_whitespace` models. -/
def is_ws (c : Char) : Bool := c.isWhitespace

/-- Split a character list at every character satisfying `p`, keeping empty
pieces, as Rust `str::split` with a char-class pattern does. -/
def split_pred (p : Char → Bool) : List Char → List (List Char)
  | [] => [[]]
  | a :: rest =>
    let r := split_pred p rest
    if p a then [] :: r else (a :: r.headD []) :: r.tail

/-- Drop whitespace from both ends of a character list. -/
def trim_chars (l : List Char) : List Char :=
  ((l.dropWhile is_ws).reverse.dropWhile is_ws).reverse

/-- Model of Rust `str::trim`. -/
def rust_trim (s : String) : String := String.mk (trim_chars s.data)

/-- Fuel-indexed worker for splitting on a non-empty separator string; the
fuel is always at least the list length plus one, so the fuel-exhaustion
branch is unreachable. -/
def split_on_fuel (sep : List Char) : Nat → List Char → List Char → List (List Char)
  | 0, l, acc => [acc.reverse ++ l]
  | Nat.succ n, l, acc =>
    match l with
    | [] => [acc.reverse]
    | c :: rest =>
      if sep.isPrefixOf (c :: rest) then
        acc.reverse :: split_on_fuel sep n ((c :: rest).drop sep.length) []
      else split_on_fuel sep n rest (c :: acc)

/-- Model of Rust `str::split` with a (non-empty) string pattern: the pieces
of `s` between consecutive occurrences of `sep`, empty pieces kept. -/
def rust_split_on (s sep : String) : List String :=
  (split_on_fuel sep.data (s.data.length + 1) s.data []).map String.mk

/-- Model of Rust `str::split_whitespace`: split at whitespace and drop the
empty pieces. -/
def split_whitespace (s : String) : List String :=
  ((split_pred is_ws s.data).filter (fun t => ¬ t.isEmpty)).map String.mk

/-- Model of Rust `str::contains` with a string pattern: substring test. -/
def contains_sub (hay needle : String) : Bool := decide (needle.data <:+: hay.data)

/-- Model of Rust `str::starts_with` with a string pattern. -/
def starts_with (s p : String) : Bool := p.data.isPrefixOf s.data

/-- Model of Rust `str::ends_with` with a string pattern. -/
def ends_with (s p : String) : Bool := p.data.isSuffixOf s.data

/-- Model of Rust `str::to_lowercase` (ASCII range). -/
def to_lower (s : String) : String := String.mk (s.data.map Char.toLower)

/-- Model of Rust `str::strip_prefix`: `some` of the remainder when `p` is a
prefix of `s`, otherwise `none`. -/
def strip_pref (p s : String) : Option String :=
  if starts_with s p then some (String.mk (s.data.drop p.data.length)) else none

/-- Model of Rust `trim_end_matches(':')`: drop every trailing colon. -/
def trim_end_colons (s : String) : String :=
  String.mk ((s.data.reverse.dropWhile (fun c => c = ':')).reverse)

/-- Drop one trailing carriage return, as Rust `str::lines` does to each
line that was terminated by a newline. -/
def strip_cr (s : String) : String :=
  if ends_with s "\r" then String.mk s.data.dropLast else s

/-- Model of Rust `str::lines`: split at newline characters, strip a carriage
return at the end of each terminated line, and drop the trailing empty piece
produced by a final newline. -/
def rust_lines (s : String) : List String :=
  if s.data.isEmpty then []
  else
    let parts := (split_pred (fun c => c = '\n') s.data).map String.mk
    if ends_with s "\n" then parts.dropLast.map strip_cr
    else parts.dropLast.map strip_cr ++ [parts.getLastD ""]

/-- Embedding of the path normalization at src/main.rs:145 (and the same
expression at lines 178, 192 and 225): Rust `bin_path.replace('\\', "/")`,
which rewrites every backslash character to a forward slash. -/
def replace_backslash_slash (s : String) : String :=
  String.mk (s.data.map (fun c => if c = '\\' then '/' else c))

/-- Model of Rust std `Path::parent` for Unix-style paths (the shapes the
program feeds it): drops the final path component; `none` for the root or
the empty path, `some ""` when a lone relative component is dropped.
Windows drive prefixes are not modelled. -/
def path_parent (p : String) : Option String :=
  if p.data.isEmpty then none
  else
    let l := (p.data.reverse.dropWhile (fun c => c = '/')).reverse
    if l.isEmpty then none
    else
      let l2 := ((l.reverse.dropWhile (fun c => c ≠ '/')).reverse.reverse.dropWhile
        (fun c => c = '/')).reverse
      if l2.isEmpty then
        if starts_with p "/" then some "/" else some ""
      else some (String.mk l2)

/-- Model of Rust std `PathBuf::join` with a relative component: append with
the platform separator unless one is already present. -/
def path_join (is_windows : Bool) (p c : String) : String :=
  let sep := if is_windows then "\\" else "/"
  if p.data.isEmpty then c
  else if ends_with p sep then p ++ c
  else p ++ sep ++ c

/-- Captured result of one finished child process: its exit status reduced to
success or not, and its standard output decoded to a string (the program uses
`from_utf8_lossy` and never inspects stderr of these helpers). -/
structure CmdOutput where
  success : Bool
  stdout : String
deriving DecidableEq

/-- Embedding of `struct PackageManager` (src/main.rs:115-118). -/
structure PackageManager where
  name : String
  package_name : String
deriving DecidableEq

/-- Environment of external effects: each field is the outcome of one kind of
child-process invocation the program performs (`Except.error` models the
spawn itself failing, as `Command::output()` returning `Err`). The
`map_*_pkg` fields are oracles for the bin-name-to-package-name resolvers
(`map_bin_name_to_*_package_name`, src/main.rs:396-641), whose own behaviour
is driven entirely by further subprocess output and filesystem reads and is
consumed by the classifier only as an opaque package-name string. -/
structure Env where
  is_windows : Bool
  which_cmd : String → Except String CmdOutput
  pnpm_bin_g : Except String CmdOutput
  yarn_global_bin : Except String CmdOutput
  brew_list_versions : String → Except String CmdOutput
  node_list_g : String → Except String CmdOutput
  cargo_install_list : Except String CmdOutput
  run_version_flag : String → String → Except String CmdOutput
  map_homebrew_pkg : String → String
  map_bun_pkg : String → String
  map_pnpm_pkg : String → String
  map_npm_pkg : String → String → String
  map_yarn_pkg : String → String

/-- Embedding of `find_binary_path` (src/main.rs:120-139): run the platform
locator (`which`/`where`), and on success trim its output and keep only the
first line; otherwise report the binary as not found. -/
def find_binary_path (env : Env) (bin_name : String) : Except String String :=
  match env.which_cmd bin_name with
  | .ok output =>
    if output.success then
      let bin_path := rust_trim output.stdout
      let first_path := (rust_lines bin_path).headD bin_path
      .ok first_path
    else .error ("Binary '" ++ bin_name ++ "' not found")
  | .error _ => .error ("Binary '" ++ bin_name ++ "' not found")

/-- Embedding of `get_update_command` (src/main.rs:240-287): the pure table
from (package-manager identifier, package name) to the update invocation. -/
def get_update_command (package_manager package_name : String) :
    Except String (String × List String) :=
  match package_manager with
  | "homebrew" => .ok ("brew", ["upgrade", package_name])
  | "bun" => .ok ("bun", ["update", "-g", package_name])
  | "npm" => .ok ("npm", ["update", "-g", package_name])
  | "pnpm" => .ok ("pnpm", ["update", "-g", package_name])
  | "cargo" => .ok ("cargo", ["install", package_name])
  | "yarn" => .ok ("yarn", ["global", "upgrade", package_name])
  | _ => .error ("Unsupported package manager: " ++ package_manager)

/-- Embedding of `detect_package_manager` (src/main.rs:141-238): resolve the
binary path, normalize its separators, then test the installation-directory
patterns in order (Homebrew, Bun, Cargo, pnpm, npm, yarn), returning at the
first match; the Rust early returns are rendered as nested fall-through
continuations. The pnpm and yarn stages use the trimmed stdout of the
manager's own global-bin query and skip only when the spawn itself failed
(`.ok()` in the source ignores the exit status); the npm stage locates the
`npm` executable and uses its containing directory. -/
def detect_package_manager (env : Env) (bin_name : String) : Except String PackageManager :=
  match find_binary_path env bin_name with
  | .error e => .error e
  | .ok bin_path =>
    let normalized_path := replace_backslash_slash bin_path
    let fail : Except String PackageManager :=
      .error ("Could not detect package manager for '" ++ bin_name ++ "'")
    let yarn_check : Except String PackageManager :=
      match env.yarn_global_bin.toOption.map (fun o => rust_trim o.stdout) with
      | some dir =>
        let normalized_dir := replace_backslash_slash dir
        if contains_sub normalized_path normalized_dir then
          .ok { name := "yarn", package_name := env.map_yarn_pkg bin_name }
        else fail
      | none => fail
    let npm_check : Except String PackageManager :=
      match find_binary_path env "npm" with
      | .ok npm_bin_path =>
        match path_parent npm_bin_path with
        | some npm_bin_dir =>
          let normalized_npm_dir := replace_backslash_slash npm_bin_dir
          if contains_sub normalized_path normalized_npm_dir then
            let global_node_modules_dir :=
              match path_parent npm_bin_dir with
              | some p =>
                if env.is_windows then path_join true p "node_modules"
                else path_join false (path_join false p "lib") "node_modules"
              | none => ""
            .ok { name := "npm",
                  package_name := env.map_npm_pkg bin_name global_node_modules_dir }
          else yarn_check
        | none => yarn_check
      | .error _ => yarn_check
    let pnpm_check : Except String PackageManager :=
      match env.pnpm_bin_g.toOption.map (fun o => rust_trim o.stdout) with
      | some dir =>
        let normalized_dir := replace_backslash_slash dir
        if contains_sub normalized_path normalized_dir then
          .ok { name := "pnpm", package_name := env.map_pnpm_pkg bin_name }
        else npm_check
      | none => npm_check
    if !env.is_windows &&
        (contains_sub normalized_path "/opt/homebrew/" ||
          contains_sub normalized_path "/usr/local/") then
      .ok { name := "homebrew", package_name := env.map_homebrew_pkg bin_name }
    else if contains_sub normalized_path "/.bun/" ||
        (env.is_windows &&
          contains_sub (to_lower normalized_path) "\\appdata\\roaming\\bun\\") then
      .ok { name := "bun", package_name := env.map_bun_pkg bin_name }
    else if contains_sub normalized_path "/.cargo/bin/" ||
        (env.is_windows &&
          contains_sub (to_lower normalized_path) "\\.cargo\\bin\\") then
      .ok { name := "cargo", package_name := bin_name }
    else pnpm_check

/-- Pattern test of the classifier's Homebrew stage (src/main.rs:148), on the
normalized binary path. -/
def matches_homebrew (env : Env) (np : String) : Bool :=
  !env.is_windows &&
    (contains_sub np "/opt/homebrew/" || contains_sub np "/usr/local/")

/-- Pattern test of the classifier's Bun stage (src/main.rs:156). -/
def matches_bun (env : Env) (np : String) : Bool :=
  contains_sub np "/.bun/" ||
    (env.is_windows && contains_sub (to_lower np) "\\appdata\\roaming\\bun\\")

/-- Pattern test of the classifier's Cargo stage (src/main.rs:164). -/
def matches_cargo (env : Env) (np : String) : Bool :=
  contains_sub np "/.cargo/bin/" ||
    (env.is_windows && contains_sub (to_lower np) "\\.cargo\\bin\\")

/-- Pattern test of the classifier's pnpm stage (src/main.rs:172-179): the
normalized path contains pnpm's reported (trimmed, normalized) global bin
directory; false when the pnpm query itself could not be spawned. -/
def matches_pnpm (env : Env) (np : String) : Bool :=
  match env.pnpm_bin_g.toOption.map (fun o => rust_trim o.stdout) with
  | some dir => contains_sub np (replace_backslash_slash dir)
  | none => false

/-- Directory of the located `npm` executable (src/main.rs:188-190). -/
def npm_bin_dir_of (env : Env) : Option String :=
  match find_binary_path env "npm" with
  | .ok p => path_parent p
  | .error _ => none

/-- Pattern test of the classifier's npm stage (src/main.rs:188-194). -/
def matches_npm (env : Env) (np : String) : Bool :=
  match npm_bin_dir_of env with
  | some d => contains_sub np (replace_backslash_slash d)
  | none => false

/-- Global node_modules directory derived in the classifier's npm stage
(src/main.rs:195-205). -/
def global_node_modules_dir_of (env : Env) : String :=
  match npm_bin_dir_of env with
  | some d =>
    match path_parent d with
    | some p =>
      if env.is_windows then path_join true p "node_modules"
      else path_join false (path_join false p "lib") "node_modules"
    | none => ""
  | none => ""

/-- Pattern test of the classifier's yarn stage (src/main.rs:219-226). -/
def matches_yarn (env : Env) (np : String) : Bool :=
  match env.yarn_global_bin.toOption.map (fun o => rust_trim o.stdout) with
  | some dir => contains_sub np (replace_backslash_slash dir)
  | none => false

/-- C1: get_update_command maps each of the six known package-manager
identifiers to exactly the fixed (executable, argument list) pair of the
spec's table, for every package name pkg. -/
theorem get_update_command_table (pkg : String) :
    get_update_command "homebrew" pkg = .ok ("brew", ["upgrade", pkg]) ∧
    get_update_command "bun" pkg = .ok ("bun", ["update", "-g", pkg]) ∧
    get_update_command "npm" pkg = .ok ("npm", ["update", "-g", pkg]) ∧
    get_update_command "pnpm" pkg = .ok ("pnpm", ["update", "-g", pkg]) ∧
    get_update_command "cargo" pkg = .ok ("cargo", ["install", pkg]) ∧
    get_update_command "yarn" pkg = .ok ("yarn", ["global", "upgrade", pkg]) :=
  ⟨rfl, rfl, rfl, rfl, rfl, rfl⟩

/-- C5: get_update_command is a pure total function (it is a plain Lean
function of its two string arguments, with no environment parameter, so it
has no side effect); for every identifier outside the six known package
managers it deterministically returns the error whose message is
"Unsupported package manager: " followed by the identifier. -/
theorem get_update_command_unsupported (pm pkg : String)
    (h : pm ∉ ["homebrew", "bun", "npm", "pnpm", "cargo", "yarn"]) :
    get_update_command pm pkg = .error ("Unsupported package manager: " ++ pm) := by
  unfold get_update_command
  split <;> simp_all

/-- Witness for C5 at the concrete unsupported identifier "apt". -/
theorem get_update_command_unsupported_witness :
    get_update_command "apt" "ripgrep" = .error ("Unsupported package manager: " ++ "apt") :=
  get_update_command_unsupported "apt" "ripgrep" (by decide)

/-- C9: path normalization (replacing every backslash with a forward slash)
is idempotent: normalizing an already-normalized path returns it unchanged. -/
theorem replace_backslash_slash_idem (s : String) :
    replace_backslash_slash (replace_backslash_slash s) = replace_backslash_slash s := by
  unfold replace_backslash_slash
  refine congrArg String.mk ?_
  show List.map _ (List.map _ s.data) = List.map _ s.data
  rw [List.map_map]
  refine List.map_congr_left ?_
  intro c _
  by_cases h : c = '\\' <;> simp [Function.comp, h]

/-- Environment in which every external invocation fails to spawn and every
package-name resolver falls back to the binary name. -/
def env_none : Env where
  is_windows := false
  which_cmd := fun _ => .error "io error"
  pnpm_bin_g := .error "io error"
  yarn_global_bin := .error "io error"
  brew_list_versions := fun _ => .error "io error"
  node_list_g := fun _ => .error "io error"
  cargo_install_list := .error "io error"
  run_version_flag := fun _ _ => .error "io error"
  map_homebrew_pkg := fun b => b
  map_bun_pkg := fun b => b
  map_pnpm_pkg := fun b => b
  map_npm_pkg := fun b _ => b
  map_yarn_pkg := fun b => b

/-- C2: the classifier applies its pattern tests in the fixed order Homebrew,
Bun, Cargo, pnpm, npm, yarn; the first test matching the resolved binary
path determines the result, and when none matches it fails with the
undetected-package-manager error. -/
theorem detect_package_manager_first_match (env : Env) (bin_name bin_path : String)
    (hfind : find_binary_path env bin_name = .ok bin_path) :
    detect_package_manager env bin_name =
      (if matches_homebrew env (replace_backslash_slash bin_path) then
        .ok { name := "homebrew", package_name := env.map_homebrew_pkg bin_name }
      else if matches_bun env (replace_backslash_slash bin_path) then
        .ok { name := "bun", package_name := env.map_bun_pkg bin_name }
      else if matches_cargo env (replace_backslash_slash bin_path) then
        .ok { name := "cargo", package_name := bin_name }
      else if matches_pnpm env (replace_backslash_slash bin_path) then
        .ok { name := "pnpm", package_name := env.map_pnpm_pkg bin_name }
      else if matches_npm env (replace_backslash_slash bin_path) then
        .ok { name := "npm",
              package_name := env.map_npm_pkg bin_name (global_node_modules_dir_of env) }
      else if matches_yarn env (replace_backslash_slash bin_path) then
        .ok { name := "yarn", package_name := env.map_yarn_pkg bin_name }
      else .error ("Could not detect package manager for '" ++ bin_name ++ "'")) := by
  simp only [detect_package_manager, hfind, matches_homebrew, matches_bun, matches_cargo,
    matches_pnpm, matches_npm, matches_yarn, npm_bin_dir_of, global_node_modules_dir_of]
  repeat' split
  all_goals simp_all

/-- Witness environment for the classifier: the target binary resolves to a
path under the Bun global directory. -/
def bun_path_env : Env :=
  { env_none with
    which_cmd := fun b =>
      if b = "esbuild" then .ok { success := true, stdout := "/home/u/.bun/bin/esbuild" }
      else .error "io error" }

/-- Witness for C2 at a concrete environment: a path under /home/u/.bun/bin
matches the Bun test first and the classifier returns bun. -/
theorem detect_package_manager_first_match_witness :
    detect_package_manager bun_path_env "esbuild" =
      (if matches_homebrew bun_path_env (replace_backslash_slash "/home/u/.bun/bin/esbuild") then
        .ok { name := "homebrew", package_name := bun_path_env.map_homebrew_pkg "esbuild" }
      else if matches_bun bun_path_env (replace_backslash_slash "/home/u/.bun/bin/esbuild") then
        .ok { name := "bun", package_name := bun_path_env.map_bun_pkg "esbuild" }
      else if matches_cargo bun_path_env (replace_backslash_slash "/home/u/.bun/bin/esbuild") then
        .ok { name := "cargo", package_name := "esbuild" }
      else if matches_pnpm bun_path_env (replace_backslash_slash "/home/u/.bun/bin/esbuild") then
        .ok { name := "pnpm", package_name := bun_path_env.map_pnpm_pkg "esbuild" }
      else if matches_npm bun_path_env (replace_backslash_slash "/home/u/.bun/bin/esbuild") then
        .ok { name := "npm",
              package_name :=
                bun_path_env.map_npm_pkg "esbuild" (global_node_modules_dir_of bun_path_env) }
      else if matches_yarn bun_path_env (replace_backslash_slash "/home/u/.bun/bin/esbuild") then
        .ok { name := "yarn", package_name := bun_path_env.map_yarn_pkg "esbuild" }
      else .error ("Could not detect package manager for '" ++ "esbuild" ++ "'")) :=
  detect_package_manager_first_match bun_path_env "esbuild" "/home/u/.bun/bin/esbuild" (by rfl)

/-- Counterexample environment for C3: the binary resolves to a path that
contains the Cargo bin marker but lies under /usr/local/, which the earlier
Homebrew test claims first. -/
def cargo_under_usr_local_env : Env :=
  { env_none with
    which_cmd := fun b =>
      if b = "foo" then .ok { success := true, stdout := "/usr/local/.cargo/bin/foo" }
      else .error "io error" }

/-- Counterexample to C3 as stated: the resolved path
/usr/local/.cargo/bin/foo contains the Cargo bin marker /.cargo/bin/, yet the
classifier yields homebrew, not cargo, because the Homebrew test runs first. -/
theorem cargo_marker_counterexample :
    contains_sub (replace_backslash_slash "/usr/local/.cargo/bin/foo") "/.cargo/bin/" = true ∧
    (detect_package_manager cargo_under_usr_local_env "foo").toOption.map PackageManager.name =
      some "homebrew" ∧
    (detect_package_manager cargo_under_usr_local_env "foo").toOption.map PackageManager.name ≠
      some "cargo" :=
  ⟨by decide, by decide, by decide⟩

/-- C3 amended: for every binary whose resolved path contains a Cargo bin
marker (after separator normalization, which covers both slash conventions),
and which matches neither the earlier Homebrew test nor the earlier Bun test,
classification yields manager cargo with package name equal to the binary
name. -/
theorem cargo_marker_detected (env : Env) (bin_name bin_path : String)
    (hfind : find_binary_path env bin_name = .ok bin_path)
    (hcargo : contains_sub (replace_backslash_slash bin_path) "/.cargo/bin/" = true)
    (hhb : matches_homebrew env (replace_backslash_slash bin_path) = false)
    (hbun : matches_bun env (replace_backslash_slash bin_path) = false) :
    detect_package_manager env bin_name = .ok { name := "cargo", package_name := bin_name } := by
  simp only [matches_homebrew] at hhb
  simp only [matches_bun] at hbun
  simp only [detect_package_manager, hfind, hhb, hbun, hcargo]
  simp

/-- Witness environment for the amended C3: a binary under ~/.cargo/bin. -/
def cargo_home_env : Env :=
  { env_none with
    which_cmd := fun b =>
      if b = "rg" then .ok { success := true, stdout := "/home/u/.cargo/bin/rg" }
      else .error "io error" }

/-- Witness for the amended C3 at a concrete environment. -/
theorem cargo_marker_detected_witness :
    detect_package_manager cargo_home_env "rg" = .ok { name := "cargo", package_name := "rg" } :=
  cargo_marker_detected cargo_home_env "rg" "/home/u/.cargo/bin/rg"
    (by rfl) (by decide) (by decide) (by decide)

/-- C10: every Detection Result produced by the classifier carries one of the
six known manager names, and feeding it to get_update_command always lands in
an ok branch, never in the unsupported-package-manager error. -/
theorem detect_result_always_supported (env : Env) (bin_name : String) (pm : PackageManager)
    (h : detect_package_manager env bin_name = .ok pm) :
    pm.name ∈ ["homebrew", "bun", "cargo", "pnpm", "npm", "yarn"] ∧
    ∃ ca, get_update_command pm.name pm.package_name = .ok ca := by
  unfold detect_package_manager at h
  rcases hfind : find_binary_path env bin_name with e | p <;> rw [hfind] at h
  · exact Except.noConfusion h
  · simp only [] at h
    repeat' split at h
    all_goals first
      | exact Except.noConfusion h
      | (rw [Except.ok.injEq] at h; subst h; exact ⟨by simp, ⟨_, rfl⟩⟩)

/-- Witness for C10 at a concrete environment: the classifier output for a
Cargo-installed binary has a supported name and a successful update command. -/
theorem detect_result_always_supported_witness :
    (PackageManager.mk "cargo" "rg").name ∈ ["homebrew", "bun", "cargo", "pnpm", "npm", "yarn"] ∧
    ∃ ca, get_update_command (PackageManager.mk "cargo" "rg").name
      (PackageManager.mk "cargo" "rg").package_name = .ok ca :=
  detect_result_always_supported cargo_home_env "rg" (PackageManager.mk "cargo" "rg") (by rfl)

/-- Embedding of `get_homebrew_version` (src/main.rs:298-317): run
`brew list --versions <bin>`; on non-zero exit fail with the
package-not-found error; on success trim the output, split on whitespace and
take the second token (defaulting to "unknown"). -/
def get_homebrew_version (env : Env) (bin_name : String) : Except String String :=
  match env.brew_list_versions bin_name with
  | .error e => .error ("Failed to get brew version: " ++ e)
  | .ok output =>
    if !output.success then .error "Package not found in homebrew"
    else .ok (((split_whitespace (rust_trim output.stdout)).get? 1).getD "unknown")

/-- The four flags tried by the generic binary version fallback
(src/main.rs:376), in the source's order. -/
def version_flags : List String := ["--version", "-v", "-V", "version"]

/-- Loop body of `get_binary_version` (src/main.rs:378-391): try each flag in
turn; on the first successful invocation return its first output line,
trimmed; skip flags whose invocation fails to spawn or exits non-zero. -/
def get_binary_version_go (env : Env) (bin_name : String) :
    List String → Except String String
  | [] => .error "Could not determine version"
  | flag :: rest =>
    match env.run_version_flag bin_name flag with
    | .ok output =>
      if output.success then
        .ok (rust_trim ((rust_lines output.stdout).headD "unknown"))
      else get_binary_version_go env bin_name rest
    | .error _ => get_binary_version_go env bin_name rest

/-- Embedding of `get_binary_version` (src/main.rs:375-394). -/
def get_binary_version (env : Env) (bin_name : String) : Except String String :=
  get_binary_version_go env bin_name version_flags

/-- Embedding of `get_node_package_version` (src/main.rs:319-346): run the
manager's `list -g --depth=0`; a spawn failure is a hard error, a non-zero
exit falls back to the generic binary version; otherwise scan the output for
the first line containing `<package>@`, split that line on the marker, and
return the piece after the first occurrence, trimmed; with no matching line,
fall back to the generic binary version. -/
def get_node_package_version (env : Env) (bin_name : String)
    (package_manager : PackageManager) : Except String String :=
  match env.node_list_g package_manager.name with
  | .error e => .error ("Failed to get " ++ package_manager.name ++ " version: " ++ e)
  | .ok output =>
    if !output.success then get_binary_version env bin_name
    else
      match (rust_lines output.stdout).find?
          (fun line => contains_sub line (package_manager.package_name ++ "@")) with
      | some line =>
        .ok (rust_trim
          (((rust_split_on line (package_manager.package_name ++ "@")).get? 1).getD "unknown"))
      | none => get_binary_version env bin_name

/-- Embedding of `get_cargo_version` (src/main.rs:348-373): run
`cargo install --list`; a spawn failure is a hard error, a non-zero exit
falls back to the generic binary version; otherwise scan for the first line
starting with `<bin_name> `, take its second whitespace token, strip a
leading "v" (defaulting to "unknown" when the token is missing or has no
"v"), and strip trailing colons; with no matching line, fall back to the
generic binary version. -/
def get_cargo_version (env : Env) (bin_name : String) : Except String String :=
  match env.cargo_install_list with
  | .error e => .error ("Failed to get cargo version: " ++ e)
  | .ok output =>
    if !output.success then get_binary_version env bin_name
    else
      match (rust_lines output.stdout).find?
          (fun line => starts_with line (bin_name ++ " ")) with
      | some line =>
        .ok (trim_end_colons
          ((((split_whitespace line).get? 1).bind (fun v => strip_pref "v" v)).getD "unknown"))
      | none => get_binary_version env bin_name

/-- Embedding of `get_version` (src/main.rs:289-296): dispatch on the
detected manager's name. -/
def get_version (env : Env) (bin_name : String) (package_manager : PackageManager) :
    Except String String :=
  match package_manager.name with
  | "homebrew" => get_homebrew_version env bin_name
  | "bun" | "npm" | "pnpm" => get_node_package_version env bin_name package_manager
  | "cargo" => get_cargo_version env bin_name
  | _ => get_binary_version env bin_name

/-- Embedding of the version-lookup call sites in `update_binary`
(src/main.rs:49-50 and 96-97): `unwrap_or_else(|_| "unknown".to_string())`,
replacing any version-lookup failure with the literal "unknown". -/
def unwrap_or_unknown (r : Except String String) : String :=
  match r with
  | .ok v => v
  | .error _ => "unknown"

/-- The outcome the generic fallback loop observes for one flag: the stdout
of a successful invocation, `none` for a spawn failure or non-zero exit. -/
def succ_out (env : Env) (bin_name flag : String) : Option String :=
  match env.run_version_flag bin_name flag with
  | .ok o => if o.success then some o.stdout else none
  | .error _ => none

/-- C4: the cargo version extractor scans the `cargo install --list` output
for the first line starting with the binary name and a space, takes that
line's second whitespace-separated token, strips the leading "v" and the
trailing colon, and returns the result. -/
theorem get_cargo_version_scan (env : Env) (bin_name out line tok s : String)
    (hrun : env.cargo_install_list = .ok { success := true, stdout := out })
    (hline : (rust_lines out).find? (fun l => starts_with l (bin_name ++ " ")) = some line)
    (htok : (split_whitespace line).get? 1 = some tok)
    (hv : strip_pref "v" tok = some s) :
    get_cargo_version env bin_name = .ok (trim_end_colons s) := by
  rw [List.get?_eq_getElem?] at htok
  simp [get_cargo_version, hrun, hline, htok, hv]

/-- Environment whose `cargo install --list` output lists foo v1.2.3: . -/
def cargo_list_env : Env :=
  { env_none with
    cargo_install_list :=
      .ok { success := true, stdout := "foo v1.2.3:\nbar v0.1.0:\n" } }

/-- Witness for C4: on an output containing the line foo v1.2.3: the cargo
version extractor returns exactly "1.2.3" for binary name foo. -/
theorem get_cargo_version_scan_witness :
    get_cargo_version cargo_list_env "foo" = .ok "1.2.3" := by
  have h := get_cargo_version_scan cargo_list_env "foo" "foo v1.2.3:\nbar v0.1.0:\n"
    "foo v1.2.3:" "v1.2.3:" "1.2.3:" rfl (by decide) (by decide) (by decide)
  exact h

/-- C7: the node-package version extractor scans the manager's global-list
output for the first line containing `<package>@`, returns the substring
after that marker, trimmed; and it falls back to the generic binary version
method when the listing command exits non-zero or no line matches. -/
theorem get_node_package_version_spec (env : Env) (bin_name : String)
    (pm : PackageManager) (out : String) :
    (∀ line rest,
      env.node_list_g pm.name = .ok { success := true, stdout := out } →
      (rust_lines out).find? (fun l => contains_sub l (pm.package_name ++ "@")) = some line →
      (rust_split_on line (pm.package_name ++ "@")).get? 1 = some rest →
      get_node_package_version env bin_name pm = .ok (rust_trim rest)) ∧
    (env.node_list_g pm.name = .ok { success := false, stdout := out } →
      get_node_package_version env bin_name pm = get_binary_version env bin_name) ∧
    (env.node_list_g pm.name = .ok { success := true, stdout := out } →
      (rust_lines out).find? (fun l => contains_sub l (pm.package_name ++ "@")) = none →
      get_node_package_version env bin_name pm = get_binary_version env bin_name) := by
  refine ⟨fun line rest h1 h2 h3 => ?_, fun h1 => ?_, fun h1 h2 => ?_⟩
  · rw [List.get?_eq_getElem?] at h3
    simp [get_node_package_version, h1, h2, h3]
  · simp [get_node_package_version, h1]
  · simp [get_node_package_version, h1, h2]

/-- Environment whose npm global list contains the line foo@1.2.3 . -/
def node_list_env : Env :=
  { env_none with
    node_list_g := fun m =>
      if m = "npm" then
        .ok { success := true, stdout := "/usr/local/lib\nfoo@1.2.3\nbar@2.0.0\n" }
      else .error "io error" }

/-- Witness for C7: on a global-list output containing the line foo@1.2.3
the node-package version extractor returns exactly "1.2.3" for package foo. -/
theorem get_node_package_version_spec_witness :
    get_node_package_version node_list_env "foo" { name := "npm", package_name := "foo" } =
      .ok "1.2.3" := by
  have h := (get_node_package_version_spec node_list_env "foo"
      { name := "npm", package_name := "foo" }
      "/usr/local/lib\nfoo@1.2.3\nbar@2.0.0\n").1
    "foo@1.2.3" "1.2.3" rfl (by decide) (by decide)
  exact h

/-- C6: the generic binary version fallback tries the flags --version, -v,
-V, version in exactly that order; the first invocation that exits
successfully yields its first output line, trimmed; if none of the four
succeeds it returns an error; and the version-lookup call sites replace any
such failure with the literal "unknown" instead of aborting. -/
theorem get_binary_version_spec (env : Env) (bin_name : String) :
    version_flags = ["--version", "-v", "-V", "version"] ∧
    get_binary_version env bin_name =
      (match version_flags.findSome? (succ_out env bin_name) with
       | some out => .ok (rust_trim ((rust_lines out).headD "unknown"))
       | none => .error "Could not determine version") ∧
    (∀ (pm : PackageManager) (e : String),
      get_version env bin_name pm = .error e →
      unwrap_or_unknown (get_version env bin_name pm) = "unknown") := by
  refine ⟨rfl, ?_, fun pm e h => by simp [unwrap_or_unknown, h]⟩
  simp only [get_binary_version, version_flags, get_binary_version_go, List.findSome?, succ_out]
  repeat' split
  all_goals simp_all

/-- Witness for C6: in an environment where every flag invocation fails the
fallback returns the could-not-determine error, and the version-lookup call
site turns that failure into "unknown". -/
theorem get_binary_version_spec_witness :
    get_binary_version env_none "foo" = .error "Could not determine version" ∧
    unwrap_or_unknown (get_version env_none "foo" { name := "ztool", package_name := "foo" }) =
      "unknown" := by
  have h := get_binary_version_spec env_none "foo"
  exact ⟨by rw [h.2.1]; rfl, h.2.2 { name := "ztool", package_name := "foo" }
    "Could not determine version" (by rfl)⟩

/-- C8: the Homebrew version reporter parses the second whitespace-separated
token of the `brew list --versions` output as the version, and on a non-zero
exit it fails with the package-not-found error instead of falling back to
the generic binary version method. -/
theorem get_homebrew_version_spec (env : Env) (bin_name out : String) :
    (env.brew_list_versions bin_name = .ok { success := true, stdout := out } →
      get_homebrew_version env bin_name =
        .ok (((split_whitespace (rust_trim out)).get? 1).getD "unknown")) ∧
    (env.brew_list_versions bin_name = .ok { success := false, stdout := out } →
      get_homebrew_version env bin_name = .error "Package not found in homebrew") := by
  constructor <;> intro h <;> simp [get_homebrew_version, h]

/-- Environment in which brew lists wget at version 1.24.5 and reports
every other package with a non-zero exit. -/
def brew_env : Env :=
  { env_none with
    brew_list_versions := fun b =>
      if b = "wget" then .ok { success := true, stdout := "wget 1.24.5\n" }
      else .ok { success := false, stdout := "" } }

/-- Witness for C8: the second token of "wget 1.24.5" is returned as the
version, and a non-zero exit yields the package-not-found error. -/
theorem get_homebrew_version_spec_witness :
    get_homebrew_version brew_env "wget" = .ok "1.24.5" ∧
    get_homebrew_version brew_env "curl" = .error "Package not found in homebrew" := by
  constructor
  · have h := (get_homebrew_version_spec brew_env "wget" "wget 1.24.5\n").1 (by rfl)
    exact h
  · exact (get_homebrew_version_spec brew_env "curl" "").2 (by rfl)
